import Mathlib

/-!
Verification of the hybrid web/gRPC service adapter.

A shallow embedding of `src/bin/server-hybrid.rs`: a hyper service that
multiplexes an axum web service and a tonic gRPC service behind one
listener, routing each request on its `content-type` header.

Modelling conventions:
* `Poll α` mirrors `std::task::Poll`.  One invocation of a Rust `poll`
  method is modelled as a pure function of the inner services' poll
  results at that instant; where the source invokes an inner poll only in
  some branches, that inner poll is passed as a function, so that "the
  inner service is never polled" is expressible as independence of the
  result from that argument.
* Rust `Result` is `Except`.  The `e.into()` conversions into
  `Box<dyn Error + Send + Sync>` are modelled by explicit conversion
  functions (`intoW`, `intoG`) into an arbitrary boxed-error type.
* A Rust panic (`Option::expect`) is modelled by an `Option` result:
  `none` is the panic.
* hyper's `HeaderMap` is modelled as the insertion-ordered list of
  (name, value-bytes) pairs with names already in their normalized
  (lower-case) form, as `HeaderMap` stores them; `HeaderMap::get`
  returns the first value carrying the given name.
-/

namespace ServerHybrid

/-- `std::task::Poll`: a poll either yields a value or is still pending. -/
inductive Poll (α : Type) : Type
  | Pending : Poll α
  | Ready (a : α) : Poll α
  deriving DecidableEq

/-- An HTTP request as the routing code observes it: method, uri, the
header map (insertion-ordered, names normalized) and the raw body. -/
structure Request where
  method : String
  uri : String
  headers : List (String × List UInt8)
  body : List UInt8
  deriving DecidableEq

/-- `HeaderMap::get(name)`: the first value stored under `name`, or
`none` when the header is absent (`.as_bytes()` applied, so the result is
the raw value bytes). -/
def Request.headerGet (req : Request) (name : String) : Option (List UInt8) :=
  (req.headers.find? (fun p => p.1 == name)).map (fun p => p.2)

/-- The bytes of the literal `b"application/grpc"`. -/
def applicationGrpc : List UInt8 :=
  [97, 112, 112, 108, 105, 99, 97, 116, 105, 111, 110, 47, 103, 114, 112, 99]

/-- Sanity check: `applicationGrpc` spells `application/grpc` in ASCII. -/
theorem applicationGrpc_spelling :
    applicationGrpc = "application/grpc".toList.map (fun c => UInt8.ofNat c.toNat) := by
  decide

/-- The per-request future `HybridFuture<WebFuture, GrpcFuture>`:
`Left` holds the web branch's future, `Right` the gRPC branch's. -/
inductive HybridFuture (WF GF : Type) : Type
  | Left (wf : WF) : HybridFuture WF GF
  | Right (gf : GF) : HybridFuture WF GF
  deriving DecidableEq

/-- Whether a `HybridFuture` is the gRPC (`Right`) branch. -/
def HybridFuture.isRight {WF GF : Type} : HybridFuture WF GF → Bool
  | .Left _ => false
  | .Right _ => true

/-- `HybridService<Web, Grpc>`: the per-connection dispatcher, holding the
connection's own web service and a clone of the shared gRPC service. -/
structure HybridService (Web Grpc : Type) where
  web : Web
  grpc : Grpc
  deriving DecidableEq

/-- `HybridService::call` (server-hybrid.rs lines 139–145): if the first
`content-type` header value equals the bytes `application/grpc`, the gRPC
service is called and its future wrapped in `Right`; otherwise the web
service is called and its future wrapped in `Left`.  The two inner
services are modelled by their `call` methods `callW`/`callG`. -/
def HybridService.call {Web Grpc WF GF : Type}
    (callW : Web → Request → WF) (callG : Grpc → Request → GF)
    (s : HybridService Web Grpc) (req : Request) : HybridFuture WF GF :=
  if req.headerGet "content-type" = some applicationGrpc then
    HybridFuture.Right (callG s.grpc req)
  else
    HybridFuture.Left (callW s.web req)

/-- Shared characterisation: `call` picks the gRPC branch exactly when the
`content-type` lookup yields the `application/grpc` bytes. -/
theorem HybridService.call_isRight {Web Grpc WF GF : Type}
    (callW : Web → Request → WF) (callG : Grpc → Request → GF)
    (s : HybridService Web Grpc) (req : Request) :
    (HybridService.call callW callG s req).isRight = true ↔
      req.headerGet "content-type" = some applicationGrpc := by
  unfold HybridService.call
  by_cases h : req.headerGet "content-type" = some applicationGrpc <;>
    simp [h, HybridFuture.isRight]

/-- `List.find?` is the head of the filtered list. -/
theorem find?_eq_head_filter {α : Type} (p : α → Bool) (l : List α) :
    l.find? p = (l.filter p).head? := by
  induction l with
  | nil => rfl
  | cons x xs ih =>
    by_cases h : p x = true
    · rw [List.find?_cons_of_pos _ h, List.filter_cons_of_pos h, List.head?_cons]
    · rw [List.find?_cons_of_neg _ h, List.filter_cons_of_neg h, ih]

/-- C1: `HybridService::call` routes to the gRPC handler iff the request's
`content-type` header value is byte-for-byte `application/grpc`; any other
case (absent header, case variation, any other value) routes to the web
handler, and requests agreeing on that one header route identically, so no
other part of the request (method, uri, body, other headers) influences
the decision. -/
theorem call_routes_grpc_iff_content_type {Web Grpc WF GF : Type}
    (callW : Web → Request → WF) (callG : Grpc → Request → GF)
    (s : HybridService Web Grpc) (req : Request) :
    ((HybridService.call callW callG s req).isRight = true ↔
      req.headerGet "content-type" = some applicationGrpc) ∧
    (∀ req2 : Request,
      req.headerGet "content-type" = req2.headerGet "content-type" →
      (HybridService.call callW callG s req).isRight =
        (HybridService.call callW callG s req2).isRight) := by
  refine ⟨HybridService.call_isRight callW callG s req, ?_⟩
  intro req2 h
  unfold HybridService.call
  rw [h]
  by_cases h2 : req2.headerGet "content-type" = some applicationGrpc <;>
    simp [h2, HybridFuture.isRight]

/-- C10: only the first `content-type` value is consulted: `call` routes
to the gRPC handler iff the first value stored under `content-type`
equals `application/grpc`, regardless of any later values. -/
theorem call_routes_on_first_content_type {Web Grpc WF GF : Type}
    (callW : Web → Request → WF) (callG : Grpc → Request → GF)
    (s : HybridService Web Grpc) (req : Request) :
    (HybridService.call callW callG s req).isRight = true ↔
      ((req.headers.filter (fun p => p.1 == "content-type")).map
        (fun p => p.2)).head? = some applicationGrpc := by
  rw [HybridService.call_isRight]
  unfold Request.headerGet
  rw [find?_eq_head_filter, List.head?_map]

/-- `HybridService::poll_ready` (server-hybrid.rs lines 124–137): `self.web`
is polled first; only in its `Ready(Ok(()))` branch is `self.grpc` polled
(so the gRPC poll is passed as a function `grpcPoll`, invoked only there);
errors from either side are converted into the boxed error type by the
`e.into()` conversions, modelled by `intoW`/`intoG`. -/
def HybridService.poll_ready {We Ge Boxed : Type} (intoW : We → Boxed) (intoG : Ge → Boxed)
    (webPoll : Poll (Except We Unit)) (grpcPoll : Unit → Poll (Except Ge Unit)) :
    Poll (Except Boxed Unit) :=
  match webPoll with
  | .Ready (.ok ()) =>
      match grpcPoll () with
      | .Ready (.ok ()) => .Ready (.ok ())
      | .Ready (.error e) => .Ready (.error (intoG e))
      | .Pending => .Pending
  | .Ready (.error e) => .Ready (.error (intoW e))
  | .Pending => .Pending

/-- C2: `HybridService::poll_ready` polls the web service first; when the
web service is `Pending` or errors, that result is propagated (the error
through the `into` boxing) and the gRPC service is never polled (the
result does not depend on `grpcPoll` at all); the dispatcher reports
`Ready (ok)` exactly when both services do. -/
theorem poll_ready_web_first_short_circuit {We Ge Boxed : Type}
    (intoW : We → Boxed) (intoG : Ge → Boxed) (e : We)
    (g g1 g2 : Unit → Poll (Except Ge Unit)) (w : Poll (Except We Unit)) :
    (HybridService.poll_ready intoW intoG .Pending g1 =
      HybridService.poll_ready intoW intoG .Pending g2) ∧
    (HybridService.poll_ready intoW intoG .Pending g = .Pending) ∧
    (HybridService.poll_ready intoW intoG (.Ready (.error e)) g1 =
      HybridService.poll_ready intoW intoG (.Ready (.error e)) g2) ∧
    (HybridService.poll_ready intoW intoG (.Ready (.error e)) g =
      .Ready (.error (intoW e))) ∧
    (HybridService.poll_ready intoW intoG w g = .Ready (.ok ()) ↔
      w = .Ready (.ok ()) ∧ g () = .Ready (.ok ())) := by
  refine ⟨rfl, rfl, rfl, rfl, ?_⟩
  constructor
  · intro h
    cases w with
    | Pending => exact absurd h (by simp [HybridService.poll_ready])
    | Ready r =>
      cases r with
      | error e2 => exact absurd h (by simp [HybridService.poll_ready])
      | ok u =>
        cases u
        refine ⟨rfl, ?_⟩
        cases hg : g () with
        | Pending => rw [HybridService.poll_ready, hg] at h; exact absurd h (by simp)
        | Ready r2 =>
          cases r2 with
          | error e3 => rw [HybridService.poll_ready, hg] at h; exact absurd h (by simp)
          | ok u2 => cases u2; rfl
  · rintro ⟨hw, hg⟩
    rw [hw, HybridService.poll_ready, hg]

/-- `HybridMakeService<MakeWeb, Grpc>`: the connection acceptor adapter,
holding the web make-service and the shared gRPC service. -/
structure HybridMakeService (MakeWeb Grpc : Type) where
  make_web : MakeWeb
  grpc : Grpc
  deriving DecidableEq

/-- `HybridMakeServiceFuture<WebFuture, Grpc>`: the future returned by
`HybridMakeService::call`, pairing the web make-service's future with
`Some` of the cloned gRPC service (`None` once the service was taken). -/
structure HybridMakeServiceFuture (WebFuture Grpc : Type) where
  web_future : WebFuture
  grpc : Option Grpc
  deriving DecidableEq

/-- `HybridMakeService::poll_ready` (server-hybrid.rs lines 67–72):
delegates to `self.make_web.poll_ready`; the web make-service is modelled
by its (state-threading) poll function `pollW`. -/
def HybridMakeService.poll_ready {MakeWeb Grpc E : Type}
    (pollW : MakeWeb → Poll (Except E Unit) × MakeWeb)
    (s : HybridMakeService MakeWeb Grpc) :
    Poll (Except E Unit) × HybridMakeService MakeWeb Grpc :=
  ((pollW s.make_web).1, { make_web := (pollW s.make_web).2, grpc := s.grpc })

/-- `HybridMakeService::call` (server-hybrid.rs lines 74–79): calls the web
make-service with the connection info and stores `Some (self.grpc.clone())`
(cloning is duplication of the value in this pure model). -/
def HybridMakeService.call {MakeWeb Grpc ConnInfo WebFuture : Type}
    (callW : MakeWeb → ConnInfo → WebFuture)
    (s : HybridMakeService MakeWeb Grpc) (conn : ConnInfo) :
    HybridMakeServiceFuture WebFuture Grpc :=
  { web_future := callW s.make_web conn, grpc := some s.grpc }

/-- `HybridMakeServiceFuture::poll` (server-hybrid.rs lines 95–105): the
web future's poll result `webRes` is matched; `Pending` and `Err` are
propagated unchanged, and `Ok(web)` takes the stored gRPC service
(`self.grpc.take().expect("Cannot poll twice!")`).  The overall `Option`
models the panic of `expect`: `none` is the "Cannot poll twice!" panic,
`some` carries the poll result and the updated `grpc` slot. -/
def HybridMakeServiceFuture.poll {We Web Grpc : Type}
    (webRes : Poll (Except We Web)) (grpc : Option Grpc) :
    Option (Poll (Except We (HybridService Web Grpc)) × Option Grpc) :=
  match webRes with
  | .Pending => some (.Pending, grpc)
  | .Ready (.error e) => some (.Ready (.error e), grpc)
  | .Ready (.ok web) =>
      match grpc with
      | some g => some (.Ready (.ok { web := web, grpc := g }), none)
      | none => none

/-- C3: once `HybridMakeServiceFuture` resolves (the web future yields
`Ok`), the stored gRPC service is consumed (the slot becomes `none`), and
a second resolving poll hits the defined panic `expect("Cannot poll
twice!")`, modelled as `none`. -/
theorem make_service_future_second_poll_panics {We Web Grpc : Type}
    (web web2 : Web) (g : Grpc) :
    (HybridMakeServiceFuture.poll (.Ready (.ok web) : Poll (Except We Web)) (some g) =
      some (.Ready (.ok { web := web, grpc := g }), none)) ∧
    (HybridMakeServiceFuture.poll (.Ready (.ok web2) : Poll (Except We Web))
      (none : Option Grpc) = none) :=
  ⟨rfl, rfl⟩

/-- C8: `HybridMakeService::poll_ready` reports exactly the web
make-service's readiness; the gRPC half is never consulted (the result is
independent of it) and is left untouched. -/
theorem make_service_poll_ready_web_only {MakeWeb Grpc E : Type}
    (pollW : MakeWeb → Poll (Except E Unit) × MakeWeb)
    (mw : MakeWeb) (g g1 g2 : Grpc) :
    ((HybridMakeService.poll_ready pollW { make_web := mw, grpc := g }).1 =
      (pollW mw).1) ∧
    ((HybridMakeService.poll_ready pollW { make_web := mw, grpc := g1 }).1 =
      (HybridMakeService.poll_ready pollW { make_web := mw, grpc := g2 }).1) ∧
    ((HybridMakeService.poll_ready pollW { make_web := mw, grpc := g }).2.grpc = g) :=
  ⟨rfl, rfl, rfl⟩

/-- C9: building a dispatcher: `HybridMakeService::call` starts the web
factory's future on the connection info and stores a clone of the shared
gRPC service; awaiting the future (its first ready poll) yields either a
`HybridService` of the freshly built web service and that clone, or, when
the web factory's future fails with `e`, exactly `e` unchanged. -/
theorem make_service_build_clone_or_error {MakeWeb Grpc ConnInfo WebFuture Web We : Type}
    (callW : MakeWeb → ConnInfo → WebFuture)
    (s : HybridMakeService MakeWeb Grpc) (conn : ConnInfo) (web : Web) (e : We) :
    ((HybridMakeService.call callW s conn).web_future = callW s.make_web conn) ∧
    ((HybridMakeService.call callW s conn).grpc = some s.grpc) ∧
    (HybridMakeServiceFuture.poll (.Ready (.ok web) : Poll (Except We Web))
        (HybridMakeService.call callW s conn).grpc =
      some (.Ready (.ok { web := web, grpc := s.grpc }), none)) ∧
    (HybridMakeServiceFuture.poll (.Ready (.error e) : Poll (Except We Web))
        (HybridMakeService.call callW s conn).grpc =
      some (.Ready (.error e), some s.grpc)) :=
  ⟨rfl, rfl, rfl, rfl⟩

/-- The response body union `HybridBody<WebBody, GrpcBody>`. -/
inductive HybridBody (WB GB : Type) : Type
  | Web (b : WB) : HybridBody WB GB
  | Grpc (b : GB) : HybridBody WB GB
  deriving DecidableEq

/-- The streaming error union `HybridError<WebError, GrpcError>`. -/
inductive HybridError (We Ge : Type) : Type
  | Web (e : We) : HybridError We Ge
  | Grpc (e : Ge) : HybridError We Ge
  deriving DecidableEq

/-- `Display for HybridError` (server-hybrid.rs lines 153–164): delegates
to the inner error's own `Display`, modelled by the renderers `dW`/`dG`. -/
def HybridError.display {We Ge : Type} (dW : We → String) (dG : Ge → String) :
    HybridError We Ge → String
  | .Web a => dW a
  | .Grpc b => dG b

/-- `Debug for HybridError` (server-hybrid.rs lines 166–177): delegates to
the inner error's own `Debug`, modelled by the renderers `dW`/`dG`. -/
def HybridError.debug {We Ge : Type} (dW : We → String) (dG : Ge → String) :
    HybridError We Ge → String
  | .Web a => dW a
  | .Grpc b => dG b

/-- The `http_body::Body` capability of one branch: end-of-stream
predicate, chunk poll and trailer poll, each threading the body's state. -/
structure BodyImpl (σ D E H : Type) where
  is_end_stream : σ → Bool
  poll_data : σ → Poll (Option (Except E D)) × σ
  poll_trailers : σ → Poll (Except E (Option H)) × σ

/-- `Poll::map_err` at the shape `Poll<Option<Result<D, E>>>` returned by
`poll_data`. -/
def Poll.mapDataErr {D E F : Type} (f : E → F) :
    Poll (Option (Except E D)) → Poll (Option (Except F D))
  | .Pending => .Pending
  | .Ready none => .Ready none
  | .Ready (some (.ok d)) => .Ready (some (.ok d))
  | .Ready (some (.error e)) => .Ready (some (.error (f e)))

/-- `Poll::map_err` at the shape `Poll<Result<Option<HeaderMap>, E>>`
returned by `poll_trailers`. -/
def Poll.mapTrailersErr {E F H : Type} (f : E → F) :
    Poll (Except E (Option H)) → Poll (Except F (Option H))
  | .Pending => .Pending
  | .Ready (.ok t) => .Ready (.ok t)
  | .Ready (.error e) => .Ready (.error (f e))

/-- `impl HttpBody for HybridBody` (server-hybrid.rs lines 189–223): each
operation matches on the active branch and forwards to that branch's body,
wrapping a poll error with `HybridError::Web` / `HybridError::Grpc` via
`map_err`.  The two branch bodies are modelled by `BodyImpl`s `w`, `g`
sharing the chunk type `D` (the `Data = WebBody::Data` bound). -/
def HybridBody.impl {σw σg D Ew Eg H : Type}
    (w : BodyImpl σw D Ew H) (g : BodyImpl σg D Eg H) :
    BodyImpl (HybridBody σw σg) D (HybridError Ew Eg) H :=
  { is_end_stream := fun b =>
      match b with
      | .Web b => w.is_end_stream b
      | .Grpc b => g.is_end_stream b,
    poll_data := fun b =>
      match b with
      | .Web b => (Poll.mapDataErr HybridError.Web (w.poll_data b).1,
          .Web (w.poll_data b).2)
      | .Grpc b => (Poll.mapDataErr HybridError.Grpc (g.poll_data b).1,
          .Grpc (g.poll_data b).2),
    poll_trailers := fun b =>
      match b with
      | .Web b => (Poll.mapTrailersErr HybridError.Web (w.poll_trailers b).1,
          .Web (w.poll_trailers b).2)
      | .Grpc b => (Poll.mapTrailersErr HybridError.Grpc (g.poll_trailers b).1,
          .Grpc (g.poll_trailers b).2) }

/-- C5: when a branch's `poll_data` fails with error `E`, the hybrid
body's `poll_data` fails with `HybridError` wrapping exactly `E`, tagged
with the branch that produced it, and `HybridError`'s `Display`/`Debug`
renderings delegate verbatim to the inner error's own renderings. -/
theorem body_poll_data_error_branch_tagged {σw σg D Ew Eg H : Type}
    (w : BodyImpl σw D Ew H) (g : BodyImpl σg D Eg H)
    (s : σw) (t : σg) (sE : Ew) (tE : Eg) (s2 : σw) (t2 : σg)
    (dW : Ew → String) (dG : Eg → String) (bW : Ew → String) (bG : Eg → String)
    (hw : w.poll_data s = (.Ready (some (.error sE)), s2))
    (hg : g.poll_data t = (.Ready (some (.error tE)), t2)) :
    ((HybridBody.impl w g).poll_data (.Web s) =
      (.Ready (some (.error (.Web sE))), .Web s2)) ∧
    ((HybridBody.impl w g).poll_data (.Grpc t) =
      (.Ready (some (.error (.Grpc tE))), .Grpc t2)) ∧
    HybridError.display dW dG (.Web sE) = dW sE ∧
    HybridError.display dW dG (.Grpc tE) = dG tE ∧
    HybridError.debug bW bG (.Web sE) = bW sE ∧
    HybridError.debug bW bG (.Grpc tE) = bG tE := by
  refine ⟨?_, ?_, rfl, rfl, rfl, rfl⟩ <;>
    simp [HybridBody.impl, hw, hg, Poll.mapDataErr]

/-- A concrete web-branch body stub whose chunk poll fails with the string
error `"chunk failed"`; used to witness `body_poll_data_error_branch_tagged`. -/
def failingBody : BodyImpl Unit Unit String Unit :=
  { is_end_stream := fun _ => false,
    poll_data := fun _ => (.Ready (some (.error "chunk failed")), ()),
    poll_trailers := fun _ => (.Ready (.ok none), ()) }

/-- Witness for C5 at a concrete failing body on both branches. -/
theorem body_poll_data_error_branch_tagged_witness :
    ((HybridBody.impl failingBody failingBody).poll_data (.Web ()) =
      (.Ready (some (.error (.Web "chunk failed"))), .Web ())) ∧
    ((HybridBody.impl failingBody failingBody).poll_data (.Grpc ()) =
      (.Ready (some (.error (.Grpc "chunk failed"))), .Grpc ())) ∧
    HybridError.display id id (.Web "chunk failed") = id "chunk failed" ∧
    HybridError.display id id (.Grpc "chunk failed") = id "chunk failed" ∧
    HybridError.debug id id (.Web "chunk failed") = id "chunk failed" ∧
    HybridError.debug id id (.Grpc "chunk failed") = id "chunk failed" :=
  body_poll_data_error_branch_tagged failingBody failingBody () () _ _ () ()
    id id id id rfl rfl

/-- Polling a body `n` times from state `s`: the list of the `n` raw
`poll_data` results and the final state. -/
def runData {σ D E H : Type} (b : BodyImpl σ D E H) :
    Nat → σ → List (Poll (Option (Except E D))) × σ
  | 0, s => ([], s)
  | Nat.succ n, s =>
      ((b.poll_data s).1 :: (runData b n (b.poll_data s).2).1,
        (runData b n (b.poll_data s).2).2)

/-- The data chunks among a list of raw `poll_data` results. -/
def dataChunks {D E : Type} (l : List (Poll (Option (Except E D)))) : List D :=
  l.filterMap (fun r =>
    match r with
    | .Ready (some (.ok d)) => some d
    | _ => none)

/-- The trailers of a ready, successful `poll_trailers` result. -/
def trailersOk {E H : Type} : Poll (Except E (Option H)) → Option (Option H)
  | .Ready (.ok t) => some t
  | _ => none

/-- Running the hybrid body on the web branch is running the inner web
body, with each poll result's error wrapped and the state re-tagged. -/
theorem runData_impl_web {σw σg D Ew Eg H : Type}
    (w : BodyImpl σw D Ew H) (g : BodyImpl σg D Eg H) :
    ∀ (n : Nat) (s : σw),
      runData (HybridBody.impl w g) n (.Web s) =
        ((runData w n s).1.map (Poll.mapDataErr HybridError.Web),
          .Web (runData w n s).2) := by
  intro n
  induction n with
  | zero => intro s; rfl
  | succ n ih =>
    intro s
    have hstep : (HybridBody.impl w g).poll_data (HybridBody.Web s) =
        (Poll.mapDataErr HybridError.Web (w.poll_data s).1,
          HybridBody.Web (w.poll_data s).2) := rfl
    simp only [runData, hstep, ih, List.map_cons]

/-- Running the hybrid body on the gRPC branch is running the inner gRPC
body, with each poll result's error wrapped and the state re-tagged. -/
theorem runData_impl_grpc {σw σg D Ew Eg H : Type}
    (w : BodyImpl σw D Ew H) (g : BodyImpl σg D Eg H) :
    ∀ (n : Nat) (t : σg),
      runData (HybridBody.impl w g) n (.Grpc t) =
        ((runData g n t).1.map (Poll.mapDataErr HybridError.Grpc),
          .Grpc (runData g n t).2) := by
  intro n
  induction n with
  | zero => intro t; rfl
  | succ n ih =>
    intro t
    have hstep : (HybridBody.impl w g).poll_data (HybridBody.Grpc t) =
        (Poll.mapDataErr HybridError.Grpc (g.poll_data t).1,
          HybridBody.Grpc (g.poll_data t).2) := rfl
    simp only [runData, hstep, ih, List.map_cons]

/-- Error wrapping never touches the data chunks. -/
theorem dataChunks_map_mapDataErr {D E F : Type} (f : E → F)
    (l : List (Poll (Option (Except E D)))) :
    dataChunks (l.map (Poll.mapDataErr f)) = dataChunks l := by
  induction l with
  | nil => rfl
  | cons r l ih =>
    cases r with
    | Pending => simpa [dataChunks, Poll.mapDataErr] using ih
    | Ready o =>
      cases o with
      | none => simpa [dataChunks, Poll.mapDataErr] using ih
      | some x =>
        cases x with
        | ok d => simpa [dataChunks, Poll.mapDataErr] using ih
        | error e => simpa [dataChunks, Poll.mapDataErr] using ih

/-- C6: the hybrid body is a pure forwarder: streaming it on either branch
yields exactly the chunks of the inner body, its trailer poll succeeds
with exactly the inner body's trailers, and `is_end_stream` answers
exactly as the inner body does. -/
theorem hybrid_body_stream_transparent {σw σg D Ew Eg H : Type}
    (w : BodyImpl σw D Ew H) (g : BodyImpl σg D Eg H)
    (n : Nat) (s : σw) (t : σg) :
    (dataChunks (runData (HybridBody.impl w g) n (.Web s)).1 =
      dataChunks (runData w n s).1) ∧
    (dataChunks (runData (HybridBody.impl w g) n (.Grpc t)).1 =
      dataChunks (runData g n t).1) ∧
    (trailersOk ((HybridBody.impl w g).poll_trailers (.Web s)).1 =
      trailersOk (w.poll_trailers s).1) ∧
    (trailersOk ((HybridBody.impl w g).poll_trailers (.Grpc t)).1 =
      trailersOk (g.poll_trailers t).1) ∧
    ((HybridBody.impl w g).is_end_stream (.Web s) = w.is_end_stream s) ∧
    ((HybridBody.impl w g).is_end_stream (.Grpc t) = g.is_end_stream t) := by
  refine ⟨?_, ?_, ?_, ?_, rfl, rfl⟩
  · rw [runData_impl_web, dataChunks_map_mapDataErr]
  · rw [runData_impl_grpc, dataChunks_map_mapDataErr]
  · show trailersOk (Poll.mapTrailersErr HybridError.Web (w.poll_trailers s).1) =
      trailersOk (w.poll_trailers s).1
    cases h : (w.poll_trailers s).1 with
    | Pending => simp [Poll.mapTrailersErr, trailersOk]
    | Ready r => cases r <;> simp [Poll.mapTrailersErr, trailersOk]
  · show trailersOk (Poll.mapTrailersErr HybridError.Grpc (g.poll_trailers t).1) =
      trailersOk (g.poll_trailers t).1
    cases h : (g.poll_trailers t).1 with
    | Pending => simp [Poll.mapTrailersErr, trailersOk]
    | Ready r => cases r <;> simp [Poll.mapTrailersErr, trailersOk]

/-- An `http::Response<B>`: the envelope (status code and headers) and a
body of type `B`. -/
structure Response (B : Type) where
  status : Nat
  headers : List (String × List UInt8)
  body : B
  deriving DecidableEq

/-- `http::Response::map`: maps the body, leaving the envelope alone. -/
def Response.map {B C : Type} (f : B → C) (r : Response B) : Response C :=
  { status := r.status, headers := r.headers, body := f r.body }

/-- `impl Future for HybridFuture` (server-hybrid.rs lines 244–257): the
active branch's future is polled; on `Ok(res)` the body is re-wrapped
(`res.map(HybridBody::Web)` resp. `res.map(HybridBody::Grpc)`), on
`Err(e)` the error is boxed by `e.into()` (modelled by `intoW`/`intoG`),
and `Pending` is propagated.  The two inner futures are modelled by their
current poll outcomes `pollW`/`pollG`. -/
def HybridFuture.poll {WF GF We Ge Boxed WB GB : Type}
    (intoW : We → Boxed) (intoG : Ge → Boxed)
    (pollW : WF → Poll (Except We (Response WB)))
    (pollG : GF → Poll (Except Ge (Response GB))) :
    HybridFuture WF GF → Poll (Except Boxed (Response (HybridBody WB GB)))
  | .Left a =>
      match pollW a with
      | .Ready (.ok res) => .Ready (.ok (res.map HybridBody.Web))
      | .Ready (.error e) => .Ready (.error (intoW e))
      | .Pending => .Pending
  | .Right b =>
      match pollG b with
      | .Ready (.ok res) => .Ready (.ok (res.map HybridBody.Grpc))
      | .Ready (.error e) => .Ready (.error (intoG e))
      | .Pending => .Pending

/-- C4: when either branch's in-flight future completes with an error,
`HybridFuture::poll` surfaces exactly that error pushed through the boxing
conversion into the one opaque boxed-error type (`intoW`/`intoG` both land
in `Boxed`, erasing the branch at the type level); nothing else happens to
it. -/
theorem hybrid_future_error_boxed {WF GF We Ge Boxed WB GB : Type}
    (intoW : We → Boxed) (intoG : Ge → Boxed)
    (pollW : WF → Poll (Except We (Response WB)))
    (pollG : GF → Poll (Except Ge (Response GB)))
    (a : WF) (b : GF) (e : We) (f : Ge)
    (hw : pollW a = .Ready (.error e)) (hg : pollG b = .Ready (.error f)) :
    (HybridFuture.poll intoW intoG pollW pollG (.Left a) =
      .Ready (.error (intoW e))) ∧
    (HybridFuture.poll intoW intoG pollW pollG (.Right b) =
      .Ready (.error (intoG f))) := by
  constructor <;> simp [HybridFuture.poll, hw, hg]

/-- Witness for C4: both branches failing with a concrete string error. -/
theorem hybrid_future_error_boxed_witness :
    (HybridFuture.poll (id : String → String) (id : String → String)
      (fun _ : Unit => (.Ready (.error "web failed") : Poll (Except String (Response Unit))))
      (fun _ : Unit => (.Ready (.error "grpc failed") : Poll (Except String (Response Unit))))
      (.Left ()) = .Ready (.error (id "web failed"))) ∧
    (HybridFuture.poll (id : String → String) (id : String → String)
      (fun _ : Unit => (.Ready (.error "web failed") : Poll (Except String (Response Unit))))
      (fun _ : Unit => (.Ready (.error "grpc failed") : Poll (Except String (Response Unit))))
      (.Right ()) = .Ready (.error (id "grpc failed"))) :=
  hybrid_future_error_boxed id id
    (fun _ : Unit => (.Ready (.error "web failed") : Poll (Except String (Response Unit))))
    (fun _ : Unit => (.Ready (.error "grpc failed") : Poll (Except String (Response Unit))))
    () () "web failed" "grpc failed" rfl rfl

/-- C7: when a branch's future completes successfully, the response's
envelope (status and headers) passes through `HybridFuture::poll`
unchanged; only the body is re-wrapped, as `HybridBody::Web` on the web
(`Left`) branch and `HybridBody::Grpc` on the gRPC (`Right`) branch. -/
theorem hybrid_future_success_envelope {WF GF We Ge Boxed WB GB : Type}
    (intoW : We → Boxed) (intoG : Ge → Boxed)
    (pollW : WF → Poll (Except We (Response WB)))
    (pollG : GF → Poll (Except Ge (Response GB)))
    (a : WF) (b : GF) (resW : Response WB) (resG : Response GB)
    (hw : pollW a = .Ready (.ok resW)) (hg : pollG b = .Ready (.ok resG)) :
    (HybridFuture.poll intoW intoG pollW pollG (.Left a) =
      .Ready (.ok (Response.mk resW.status resW.headers (HybridBody.Web resW.body)))) ∧
    (HybridFuture.poll intoW intoG pollW pollG (.Right b) =
      .Ready (.ok (Response.mk resG.status resG.headers (HybridBody.Grpc resG.body)))) := by
  constructor <;> simp [HybridFuture.poll, hw, hg, Response.map]

/-- Witness for C7: a concrete 200 response with one header on each
branch. -/
theorem hybrid_future_success_envelope_witness :
    (HybridFuture.poll (id : Unit → Unit) (id : Unit → Unit)
      (fun _ : Unit => .Ready (.ok (Response.mk 200 [("x", [1])] true)))
      (fun _ : Unit => .Ready (.ok (Response.mk 204 [] false))) (.Left ()) =
      .Ready (.ok (Response.mk 200 [("x", [1])] (HybridBody.Web true)))) ∧
    (HybridFuture.poll (id : Unit → Unit) (id : Unit → Unit)
      (fun _ : Unit => .Ready (.ok (Response.mk 200 [("x", [1])] true)))
      (fun _ : Unit => .Ready (.ok (Response.mk 204 [] false))) (.Right ()) =
      .Ready (.ok (Response.mk 204 [] (HybridBody.Grpc false)))) :=
  hybrid_future_success_envelope id id
    (fun _ : Unit => .Ready (.ok (Response.mk 200 [("x", [1])] true)))
    (fun _ : Unit => .Ready (.ok (Response.mk 204 [] false)))
    () () (Response.mk 200 [("x", [1])] true) (Response.mk 204 [] false) rfl rfl

end ServerHybrid
